import Mathlib

/-!
# ar_kinect: marker selection, pose tracking, conversion and depth refinement

A shallow embedding of `ARPublisher::getTransformationCallback`
(`trunk/albany_vision/ar_kinect/src/ar_kinect.cpp`, lines 148-333) and of the state it
works on, followed by theorems about the per-frame pipeline.

Conventions of the embedding:

* `double` and `btScalar` values are rationals (`ℚ`); a cloud coordinate that may be NaN
  is an `Option ℚ` with `none` for NaN (the only place where the source tests `isnan`).
* ARToolKit, cv_bridge and the axis-angle constructor of Bullet are outside the
  repository; they are fields of `Lib`, and every theorem holds for all of them.
* A run that reaches `ROS_BREAK` is `Outcome.abort`; a run that reaches undefined
  behaviour of C++ (a read outside a vector, a division by zero) is `Outcome.undefined`.
* Calls to the libraries and `push_back` are recorded as `Event`s, per loop iteration.
* `publishTf_`, `publishVisualMarkers_` and the rviz marker (lines 273-329) do not
  influence the state or the pose records and are left out.
-/

namespace ArKinect

/-! ## Data model -/

/-- Three doubles: `double pos[3]`, `btVector3`. -/
structure Vec3 where
  x : ℚ
  y : ℚ
  z : ℚ
  deriving DecidableEq, Repr

/-- Four doubles in the order x, y, z, w: `double quat[4]`, `btQuaternion`. -/
structure Quat where
  x : ℚ
  y : ℚ
  z : ℚ
  w : ℚ
  deriving DecidableEq, Repr

/-- The detector-native transform `double trans[3][4]`, row by row. -/
abbrev Trans := List ℚ

/-- The image buffer `capture_->imageData`. -/
abbrev IplImage := List Nat

/-- ARToolKit candidate `ARMarkerInfo`; the callback reads `id`, `cf` and `pos`. -/
structure ARMarkerInfo where
  area : Int
  id : Int
  dir : Int
  cf : ℚ
  pos : ℚ × ℚ
  line : List ℚ
  vertex : List ℚ
  deriving DecidableEq, Repr

/-- Modelled from the spec: the declaration of `ar_object::ObjectData_T`
(`ar_kinect/object.h`) is absent; these are the fields the callback reads or writes, which
are the fields of the spec's TrackedObject (id, name, width, centre offset, `visible`,
last transform). -/
structure ObjectData_T where
  name : String
  id : Int
  visible : Int
  marker_center : ℚ × ℚ
  marker_width : ℚ
  trans : Trans
  deriving DecidableEq, Repr

/-- The `std_msgs/Header` fields copied from the image message. -/
structure Header where
  frame_id : String
  stamp : Nat
  deriving DecidableEq, Repr

/-- Modelled from the spec: the declaration of the message `ar_pose::ARMarker` is absent;
these are the fields assigned in lines 256-270, the spec's PoseRecord. -/
structure ARMarker where
  header : Header
  id : Int
  position : Vec3
  orientation : Quat
  confidence : ℚ
  deriving DecidableEq, Repr

/-- The image message: header, width, encoding and pixel data. -/
structure ImageMsg where
  header : Header
  width : Nat
  encoding : String
  data : List Nat
  deriving DecidableEq, Repr

/-- One cell `pcl::PointXYZRGBNormal` of the cloud; `none` is NaN. -/
structure PointXYZRGBNormal where
  x : Option ℚ
  y : Option ℚ
  z : Option ℚ
  normal_x : ℚ
  normal_y : ℚ
  normal_z : ℚ
  deriving DecidableEq, Repr

/-- The organized cloud `cloud_`: a vector of points read as a `width` by `height` grid. -/
structure PointCloud where
  width : Nat
  height : Nat
  points : List PointXYZRGBNormal
  deriving DecidableEq, Repr

/-- The fields of `ARPublisher` that the image callback reads or writes. -/
structure ARPublisher where
  object : List ObjectData_T
  capture_ : IplImage
  threshold_ : Int
  gotcloud_ : Bool
  cloud_width_ : Nat
  cloud_ : PointCloud
  arPoseMarkers_ : List ARMarker
  deriving DecidableEq, Repr

/-- The collaborators outside the repository. `arDetectMarker` returns `none` for a
negative return code, `imgMsgToCv` returns `none` when it throws `CvBridgeException`,
`arUtilMat2QuatPos` returns `(arQuat, arPos)`, `btAxisAngle` is the constructor
`btQuaternion(axis, angle)`, and `AR_TO_ROS` is the constant of `ar_kinect.h`. -/
structure Lib where
  AR_TO_ROS : ℚ
  imgMsgToCv : ImageMsg → Option IplImage
  arDetectMarker : IplImage → Int → Option (List ARMarkerInfo)
  arGetTransMat : ARMarkerInfo → ℚ × ℚ → ℚ → Trans
  arGetTransMatCont : ARMarkerInfo → Trans → ℚ × ℚ → ℚ → Trans
  arUtilMat2QuatPos : Trans → Quat × Vec3
  btAxisAngle : Vec3 → ℚ → Quat

/-- What a piece of the callback ends in: a value, `ROS_BREAK`, or undefined behaviour. -/
inductive Outcome (α : Type) where
  | ok (a : α)
  | abort
  | undefined
  deriving DecidableEq, Repr

/-- The calls and appends the callback makes. -/
inductive Event where
  | rosError
  | arDetectMarker (img : IplImage)
  | arGetTransMat (k : Nat)
  | arGetTransMatCont (k : Nat) (prev : Trans)
  | cloudRead (col row : Int)
  | push_back (m : ARMarker)
  deriving DecidableEq, Repr

/-! ## Bullet vector and quaternion operations used in lines 236-244 -/

/-- Cross product `btVector3::cross`. -/
def Vec3.cross (a b : Vec3) : Vec3 :=
  ⟨a.y * b.z - a.z * b.y, a.z * b.x - a.x * b.z, a.x * b.y - a.y * b.x⟩

/-- Dot product `btVector3::dot`. -/
def Vec3.dot (a b : Vec3) : ℚ :=
  a.x * b.x + a.y * b.y + a.z * b.z

/-- Quaternion product `operator*(btQuaternion, btQuaternion)`. -/
def Quat.mul (a b : Quat) : Quat :=
  ⟨a.w * b.x + a.x * b.w + a.y * b.z - a.z * b.y,
   a.w * b.y + a.y * b.w + a.z * b.x - a.x * b.z,
   a.w * b.z + a.z * b.w + a.x * b.y - a.y * b.x,
   a.w * b.w - a.x * b.x - a.y * b.y - a.z * b.z⟩

/-- The vector `btTransform(q) * v`: the rotation matrix `btMatrix3x3::setRotation(q)`
applied to `v`, with zero origin. -/
def btTransformApply (q : Quat) (v : Vec3) : Vec3 :=
  let d := q.x * q.x + q.y * q.y + q.z * q.z + q.w * q.w
  let s := 2 / d
  let xs := q.x * s
  let ys := q.y * s
  let zs := q.z * s
  let wx := q.w * xs
  let wy := q.w * ys
  let wz := q.w * zs
  let xx := q.x * xs
  let xy := q.x * ys
  let xz := q.x * zs
  let yy := q.y * ys
  let yz := q.y * zs
  let zz := q.z * zs
  ⟨Vec3.dot ⟨1 - (yy + zz), xy - wz, xz + wy⟩ v,
   Vec3.dot ⟨xy + wz, 1 - (xx + zz), yz - wx⟩ v,
   Vec3.dot ⟨xz - wy, yz + wx, 1 - (xx + yy)⟩ v⟩

/-! ## Marker selection (lines 183-194) -/

/-- One iteration `j` of the inner loop, from the value of `k` before it. -/
def selectStep (objId : Int) (marker_info : List ARMarkerInfo) (k : Int) (j : Nat) : Int :=
  match marker_info[j]? with
  | none => k
  | some mj =>
    if objId = mj.id then
      if k = -1 then (j : Int)
      else
        match marker_info[k.toNat]? with
        | some mk => if mk.cf < mj.cf then (j : Int) else k
        | none => k
    else k

/-- The value of `k` after the iterations `j = 0, ..., n - 1`, starting from `k = -1`. -/
def selectLoop (objId : Int) (marker_info : List ARMarkerInfo) : Nat → Int
  | 0 => -1
  | n + 1 => selectStep objId marker_info (selectLoop objId marker_info n) n

/-- The value of `k` after the whole inner loop (`marker_num` iterations). -/
def selectMarker (objId : Int) (marker_info : List ARMarkerInfo) : Int :=
  selectLoop objId marker_info marker_info.length

/-! ## Coordinate conversion (lines 215-226) -/

/-- The position `pos` and quaternion `quat` computed from the stored transform. -/
def convert (L : Lib) (trans : Trans) : Vec3 × Quat :=
  let arQuat := (L.arUtilMat2QuatPos trans).1
  let arPos := (L.arUtilMat2QuatPos trans).2
  (⟨arPos.x * L.AR_TO_ROS, arPos.y * L.AR_TO_ROS, arPos.z * L.AR_TO_ROS⟩,
   ⟨-arQuat.x, -arQuat.y, -arQuat.z, arQuat.w⟩)

/-! ## Depth refinement (lines 228-252) -/

/-- The cast `(int) (p / downsize)` of a double divided by an `int`: truncation toward
zero; with `downsize = 0` the quotient is infinite or NaN and the cast is undefined. -/
def cellIndex (p : ℚ) (downsize : Nat) : Option Int :=
  if downsize = 0 then none
  else some (Int.tdiv (p / (downsize : ℚ)).num ((p / (downsize : ℚ)).den : Int))

/-- The read `cloud_(col, row)`, which is `points[row * width + col]` without a range
check; an index outside the vector is undefined behaviour (`none`). -/
def PointCloud.at (c : PointCloud) (col row : Int) : Option PointXYZRGBNormal :=
  if row * (c.width : Int) + col < 0 then none
  else c.points[(row * (c.width : Int) + col).toNat]?

/-- The quaternion `r` of line 244, computed from `q` and the cloud point. -/
def correctedOrientation (L : Lib) (q : Quat) (point : PointXYZRGBNormal) : Quat :=
  let normal : Vec3 := ⟨point.normal_x, point.normal_y, point.normal_z⟩
  let up := btTransformApply q ⟨0, 0, 1⟩
  let axis := up.cross normal
  let angle := up.dot normal
  (L.btAxisAngle axis angle).mul q

/-- Lines 228-252: the final `pos` and `quat` and the cloud read made, from the
converter's `pos` and `quat`. -/
def depthRefine (L : Lib) (gotcloud_ : Bool) (cloud_ : PointCloud) (downsize : Nat)
    (mk : ARMarkerInfo) (pos : Vec3) (quat : Quat) : Outcome (Vec3 × Quat × List Event) :=
  if gotcloud_ then
    match cellIndex mk.pos.1 downsize, cellIndex mk.pos.2 downsize with
    | some col, some row =>
      match cloud_.at col row with
      | none => .undefined
      | some point =>
        match point.x, point.y, point.z with
        | some px, some py, some pz =>
          let q : Quat := ⟨quat.x, quat.y, quat.z, quat.w⟩
          let _r := correctedOrientation L q point
          .ok (⟨px, py, pz⟩, ⟨q.x, q.y, q.z, q.w⟩, [Event.cloudRead col row])
        | _, _, _ => .ok (pos, quat, [Event.cloudRead col row])
    | _, _ => .undefined
  else .ok (pos, quat, [])

/-! ## One iteration of the object loop (lines 183-271) -/

/-- What one iteration of the loop over `object` leaves behind. -/
structure IterResult where
  object : ObjectData_T
  markers : List ARMarker
  events : List Event
  deriving DecidableEq, Repr

/-- Lines 204-212: the transform written to `object[i].trans` and the library call that
produced it; `k` is the selected index and `mk` the candidate `marker_info[k]`. -/
def requestTrans (L : Lib) (k : Nat) (mk : ARMarkerInfo) (obj : ObjectData_T) : Trans × Event :=
  if obj.visible = 0 then
    (L.arGetTransMat mk obj.marker_center obj.marker_width, Event.arGetTransMat k)
  else
    (L.arGetTransMatCont mk obj.trans obj.marker_center obj.marker_width,
     Event.arGetTransMatCont k obj.trans)

/-- The body of the loop over `object` for one tracked object. -/
def processObject (L : Lib) (gotcloud_ : Bool) (cloud_ : PointCloud) (downsize : Nat)
    (header : Header) (marker_info : List ARMarkerInfo) (obj : ObjectData_T) :
    Outcome IterResult :=
  let k := selectMarker obj.id marker_info
  if k = -1 then .ok ⟨{ obj with visible := 0 }, [], []⟩
  else
    match marker_info[k.toNat]? with
    | none => .undefined
    | some mk =>
      let trans := (requestTrans L k.toNat mk obj).1
      let ev1 := (requestTrans L k.toNat mk obj).2
      let obj' : ObjectData_T := { obj with trans := trans, visible := 1 }
      match depthRefine L gotcloud_ cloud_ downsize mk (convert L trans).1 (convert L trans).2 with
      | .abort => .abort
      | .undefined => .undefined
      | .ok (pos, quat, ev2) =>
        match marker_info[0]? with
        | none => .undefined
        | some m0 =>
          let ar_pose_marker : ARMarker :=
            { header := header, id := obj.id, position := pos, orientation := quat,
              confidence := m0.cf }
          .ok ⟨obj', [ar_pose_marker], ev1 :: ev2 ++ [Event.push_back ar_pose_marker]⟩

/-- The loop `for (i = 0; i < objectnum; i++)` with body `body`. -/
def objectLoop (body : ObjectData_T → Outcome IterResult) :
    List ObjectData_T → Outcome (List IterResult)
  | [] => .ok []
  | o :: os =>
    match body o with
    | .abort => .abort
    | .undefined => .undefined
    | .ok r =>
      match objectLoop body os with
      | .abort => .abort
      | .undefined => .undefined
      | .ok rs => .ok (r :: rs)

/-! ## The image callback (lines 148-333) -/

/-- What one run of the callback leaves behind: the candidates found, the events before
the object loop, the events of each loop iteration, and the state afterwards. -/
structure FrameLog where
  marker_info : List ARMarkerInfo
  head : List Event
  iters : List (List Event)
  post : ARPublisher
  deriving DecidableEq, Repr

/-- Lines 159-166: the buffer `capture_` after the `try` block; when the conversion
throws, the `catch` block logs and `capture_` keeps its previous value. -/
def convertImage (L : Lib) (st : ARPublisher) (image_msg : ImageMsg) : IplImage × List Event :=
  match L.imgMsgToCv image_msg with
  | some img => (img, [])
  | none => (st.capture_, [Event.rosError])

/-- The image callback `ARPublisher::getTransformationCallback`. -/
def getTransformationCallback (L : Lib) (st : ARPublisher) (image_msg : ImageMsg) :
    Outcome FrameLog :=
  let capture := (convertImage L st image_msg).1
  let ev0 := (convertImage L st image_msg).2
  match L.arDetectMarker capture st.threshold_ with
  | none => .abort
  | some marker_info =>
    if st.cloud_width_ = 0 then .undefined
    else
      let downsize := image_msg.width / st.cloud_width_
      match objectLoop
          (processObject L st.gotcloud_ st.cloud_ downsize image_msg.header marker_info)
          st.object with
      | .abort => .abort
      | .undefined => .undefined
      | .ok rs =>
        .ok { marker_info := marker_info
              head := ev0 ++ [Event.arDetectMarker capture]
              iters := rs.map (fun r => r.events)
              post := { st with
                        capture_ := capture
                        object := rs.map (fun r => r.object)
                        arPoseMarkers_ := (rs.map (fun r => r.markers)).flatten } }

/-- The callback run on a sequence of image messages, one after the other. -/
def runFrames (L : Lib) : ARPublisher → List ImageMsg → Outcome (List FrameLog)
  | _, [] => .ok []
  | st, m :: ms =>
    match getTransformationCallback L st m with
    | .abort => .abort
    | .undefined => .undefined
    | .ok log =>
      match runFrames L log.post ms with
      | .abort => .abort
      | .undefined => .undefined
      | .ok logs => .ok (log :: logs)

/-- The transform requests among the events of a loop iteration. -/
def requests (evs : List Event) : List Event :=
  evs.filter fun e =>
    match e with
    | .arGetTransMat _ => true
    | .arGetTransMatCont _ _ => true
    | _ => false

/-- The value of a completed piece, if there is one. -/
def Outcome.toOption {α : Type} : Outcome α → Option α
  | .ok a => some a
  | .abort => none
  | .undefined => none

/-! ## Concrete collaborators and inputs, used to run the callback on examples -/

/-- A stand-in detector: the buffer is read as groups of four numbers, one candidate per
group: id, confidence in percent, centroid x, centroid y. -/
def stubDetect : List Nat → List ARMarkerInfo
  | id :: cf :: x :: y :: rest =>
    { area := 0, id := (id : Int), dir := 0, cf := (cf : ℚ) / 100, pos := ((x : ℚ), (y : ℚ)),
      line := [], vertex := [] } :: stubDetect rest
  | _ => []

/-- Stand-ins for the libraries: `AR_TO_ROS` is 1/1000, only `bgr8` images convert, the
fresh transform puts the marker at its centroid at depth 1000, the continuity transform
moves the previous depth by one, every rotation is the identity quaternion, and the
axis-angle constructor just stores its arguments. -/
def stubLib : Lib where
  AR_TO_ROS := 1 / 1000
  imgMsgToCv := fun m => if m.encoding = "bgr8" then some m.data else none
  arDetectMarker := fun img _ => some (stubDetect img)
  arGetTransMat := fun mk _ _ => [mk.pos.1, mk.pos.2, 1000]
  arGetTransMatCont := fun mk prev _ _ => [mk.pos.1, mk.pos.2, prev.getD 2 0 + 1]
  arUtilMat2QuatPos := fun t => (⟨0, 0, 0, 1⟩, ⟨t.getD 0 0, t.getD 1 0, t.getD 2 0⟩)
  btAxisAngle := fun axis angle => ⟨axis.x, axis.y, axis.z, angle⟩

/-- One tracked object, id 5, not yet seen. -/
def marker5 : ObjectData_T :=
  { name := "marker5", id := 5, visible := 0, marker_center := (0, 0), marker_width := 80,
    trans := [] }

/-- The publisher after `arInit`, before any image or cloud: one tracked object. -/
def startState : ARPublisher :=
  { object := [marker5], capture_ := [], threshold_ := 100, gotcloud_ := false,
    cloud_width_ := 640, cloud_ := ⟨0, 0, []⟩, arPoseMarkers_ := [] }

/-- An image message with the given time stamp, width, encoding and pixel data. -/
def imageMsg (stamp : Nat) (width : Nat) (encoding : String) (data : List Nat) : ImageMsg :=
  { header := ⟨"camera", stamp⟩, width := width, encoding := encoding, data := data }

/-- A cloud cell with valid coordinates (1, 2, 3) whose normal (0, 3/5, 4/5) is tilted
away from the +Z axis. -/
def tiltedPoint : PointXYZRGBNormal :=
  { x := some 1, y := some 2, z := some 3, normal_x := 0, normal_y := 3 / 5, normal_z := 4 / 5 }

/-- A cloud cell without depth: x is NaN. -/
def nanPoint : PointXYZRGBNormal :=
  { x := none, y := some 2, z := some 3, normal_x := 0, normal_y := 0, normal_z := 1 }

/-- Cell number `n` (row by row) of a synthetic 160 by 120 cloud: cell 0 is
`tiltedPoint`, odd cells have no depth, and an even cell `n > 0` lies at
(`n % 160`, `n / 160`, 1) with normal +Z. -/
def gridCell (n : Nat) : PointXYZRGBNormal :=
  if n = 0 then tiltedPoint
  else if n % 2 = 1 then nanPoint
  else { x := some ((n % 160 : Nat) : ℚ), y := some ((n / 160 : Nat) : ℚ), z := some 1,
         normal_x := 0, normal_y := 0, normal_z := 1 }

/-- The cells `n, n + 1, ..., n + count - 1` of the synthetic cloud. -/
def gridFrom : Nat → Nat → List PointXYZRGBNormal
  | _, 0 => []
  | n, count + 1 => gridCell n :: gridFrom (n + 1) count

/-- A synthetic cloud of 160 by 120 cells. -/
def kinectCloud : PointCloud :=
  { width := 160, height := 120, points := gridFrom 0 (160 * 120) }

/-- The publisher after `cloudCallback` has stored `kinectCloud`. -/
def cloudState : ARPublisher :=
  { startState with gotcloud_ := true, cloud_width_ := 160, cloud_ := kinectCloud }

/-- The publisher after a frame in which marker 5 was seen at the image origin. -/
def seenState : ARPublisher :=
  { startState with
    object := [{ marker5 with visible := 1, trans := [0, 0, 1000] }]
    capture_ := [5, 80, 0, 0] }

/-- Four frames: marker 5 seen, seen again, absent (only marker 3), seen again. -/
def fourFrames : List ImageMsg :=
  [imageMsg 1 640 "bgr8" [5, 80, 0, 0], imageMsg 2 640 "bgr8" [5, 70, 4, 4],
   imageMsg 3 640 "bgr8" [3, 70, 4, 4], imageMsg 4 640 "bgr8" [5, 60, 8, 8]]

/-- The logs of the callback on `fourFrames` from `startState`. -/
def fourLogs : List FrameLog :=
  (runFrames stubLib startState fourFrames).toOption.getD []

/-! ## Marker selection: the loop invariant -/

/-- The state of the inner loop after `n` iterations: either `k = -1` and none of the
first `n` candidates has the id, or `k` is the first confidence-maximal candidate with the
id among the first `n`. -/
def SelectInv (objId : Int) (marker_info : List ARMarkerInfo) (n : Nat) (k : Int) : Prop :=
  (k = -1 ∧ ∀ j mj, j < n → marker_info[j]? = some mj → mj.id ≠ objId) ∨
  (∃ (kn : Nat) (mk : ARMarkerInfo), k = (kn : Int) ∧ kn < n ∧ marker_info[kn]? = some mk ∧ mk.id = objId ∧
    (∀ j mj, j < n → marker_info[j]? = some mj → mj.id = objId → mj.cf ≤ mk.cf) ∧
    (∀ j mj, j < kn → marker_info[j]? = some mj → mj.id = objId → mj.cf < mk.cf))

theorem selectStep_inv (objId : Int) (marker_info : List ARMarkerInfo) (n : Nat) (k : Int)
    (hn : n < marker_info.length) (h : SelectInv objId marker_info n k) :
    SelectInv objId marker_info (n + 1) (selectStep objId marker_info k n) := by
  obtain ⟨mj, hmj⟩ : ∃ mj, marker_info[n]? = some mj :=
    ⟨marker_info[n], List.getElem?_eq_getElem hn⟩
  unfold selectStep
  rw [hmj]
  simp only
  by_cases hid : objId = mj.id
  · rw [if_pos hid]
    rcases h with ⟨hk, hnone⟩ | ⟨kn, mk, hk, hkn, hmk, hmkid, hmax, hfirst⟩
    · rw [if_pos hk]
      right
      refine ⟨n, mj, rfl, Nat.lt_succ_self n, hmj, hid.symm, ?_, ?_⟩
      · intro j mj' hj hmj' hid'
        rcases Nat.lt_succ_iff_lt_or_eq.mp hj with hlt | heq
        · exact absurd hid' (hnone j mj' hlt hmj')
        · subst heq
          rw [hmj] at hmj'
          cases hmj'
          exact le_refl _
      · intro j mj' hj hmj' hid'
        exact absurd hid' (hnone j mj' hj hmj')
    · have hk1 : k ≠ -1 := by omega
      rw [if_neg hk1]
      have hkt : k.toNat = kn := by omega
      rw [hkt, hmk]
      simp only
      by_cases hcf : mk.cf < mj.cf
      · rw [if_pos hcf]
        right
        refine ⟨n, mj, rfl, Nat.lt_succ_self n, hmj, hid.symm, ?_, ?_⟩
        · intro j mj' hj hmj' hid'
          rcases Nat.lt_succ_iff_lt_or_eq.mp hj with hlt | heq
          · exact le_trans (hmax j mj' hlt hmj' hid') (le_of_lt hcf)
          · subst heq
            rw [hmj] at hmj'
            cases hmj'
            exact le_refl _
        · intro j mj' hj hmj' hid'
          exact lt_of_le_of_lt (hmax j mj' hj hmj' hid') hcf
      · rw [if_neg hcf]
        right
        refine ⟨kn, mk, hk, Nat.lt_succ_of_lt hkn, hmk, hmkid, ?_, hfirst⟩
        intro j mj' hj hmj' hid'
        rcases Nat.lt_succ_iff_lt_or_eq.mp hj with hlt | heq
        · exact hmax j mj' hlt hmj' hid'
        · subst heq
          rw [hmj] at hmj'
          cases hmj'
          exact not_lt.mp hcf
  · rw [if_neg hid]
    rcases h with ⟨hk, hnone⟩ | ⟨kn, mk, hk, hkn, hmk, hmkid, hmax, hfirst⟩
    · left
      refine ⟨hk, ?_⟩
      intro j mj' hj hmj'
      rcases Nat.lt_succ_iff_lt_or_eq.mp hj with hlt | heq
      · exact hnone j mj' hlt hmj'
      · subst heq
        rw [hmj] at hmj'
        cases hmj'
        exact fun h' => hid h'.symm
    · right
      refine ⟨kn, mk, hk, Nat.lt_succ_of_lt hkn, hmk, hmkid, ?_, hfirst⟩
      intro j mj' hj hmj' hid'
      rcases Nat.lt_succ_iff_lt_or_eq.mp hj with hlt | heq
      · exact hmax j mj' hlt hmj' hid'
      · subst heq
        rw [hmj] at hmj'
        cases hmj'
        exact absurd hid'.symm hid

theorem selectLoop_inv (objId : Int) (marker_info : List ARMarkerInfo) :
    ∀ n, n ≤ marker_info.length →
      SelectInv objId marker_info n (selectLoop objId marker_info n)
  | 0, _ => Or.inl ⟨rfl, fun _ _ hj => absurd hj (Nat.not_lt_zero _)⟩
  | n + 1, hn =>
    selectStep_inv objId marker_info n _ hn (selectLoop_inv objId marker_info n (Nat.le_of_succ_le hn))

theorem selectMarker_inv (objId : Int) (marker_info : List ARMarkerInfo) :
    SelectInv objId marker_info marker_info.length (selectMarker objId marker_info) :=
  selectLoop_inv objId marker_info marker_info.length (le_refl _)

theorem selectMarker_eq_neg_one_iff (objId : Int) (marker_info : List ARMarkerInfo) :
    selectMarker objId marker_info = -1 ↔ ∀ m ∈ marker_info, m.id ≠ objId := by
  constructor
  · intro hk m hm
    obtain ⟨j, hj, hmj⟩ := List.getElem_of_mem hm
    rcases selectMarker_inv objId marker_info with ⟨_, hnone⟩ | ⟨kn, mk, hkn, _⟩
    · exact hnone j m hj (by rw [List.getElem?_eq_getElem hj, hmj])
    · omega
  · intro hall
    rcases selectMarker_inv objId marker_info with ⟨hk, _⟩ | ⟨kn, mk, _, _, hmk, hid, _⟩
    · exact hk
    · exact absurd hid (hall mk (List.getElem?_mem hmk))

theorem selectMarker_found (objId : Int) (marker_info : List ARMarkerInfo)
    (h : selectMarker objId marker_info ≠ -1) :
    ∃ (k : Nat) (mk : ARMarkerInfo), selectMarker objId marker_info = (k : Int) ∧
      marker_info[k]? = some mk ∧ mk.id = objId ∧
      (∀ (j : Nat) (mj : ARMarkerInfo), marker_info[j]? = some mj → mj.id = objId → mj.cf ≤ mk.cf) ∧
      (∀ (j : Nat) (mj : ARMarkerInfo), marker_info[j]? = some mj → mj.id = objId → mj.cf = mk.cf → k ≤ j) := by
  rcases selectMarker_inv objId marker_info with ⟨hk, _⟩ | ⟨kn, mk, hk, _, hmk, hid, hmax, hfirst⟩
  · exact absurd hk h
  · refine ⟨kn, mk, hk, hmk, hid, ?_, ?_⟩
    · intro j mj hmj hidj
      have hj : j < marker_info.length := by
        by_contra hge
        rw [List.getElem?_eq_none (not_lt.mp hge)] at hmj
        cases hmj
      exact hmax j mj hj hmj hidj
    · intro j mj hmj hidj hcf
      by_contra hlt
      have := hfirst j mj (not_le.mp hlt) hmj hidj
      rw [hcf] at this
      exact lt_irrefl _ this

/-! ## C1: selection -/

/-- C1: the index `k` left by the selection loop is `-1` exactly when no candidate has the
object's id; otherwise it is the index of a candidate with the object's id whose
confidence is maximal among the candidates with that id, and it is the lowest such
index. -/
theorem selectMarker_first_maximal (objId : Int) (marker_info : List ARMarkerInfo) :
    (selectMarker objId marker_info = -1 ↔ ∀ m ∈ marker_info, m.id ≠ objId) ∧
    (selectMarker objId marker_info ≠ -1 →
      ∃ (k : Nat) (mk : ARMarkerInfo), selectMarker objId marker_info = (k : Int) ∧
        marker_info[k]? = some mk ∧ mk.id = objId ∧
        (∀ (j : Nat) (mj : ARMarkerInfo), marker_info[j]? = some mj → mj.id = objId → mj.cf ≤ mk.cf) ∧
        (∀ (j : Nat) (mj : ARMarkerInfo), marker_info[j]? = some mj → mj.id = objId → mj.cf = mk.cf → k ≤ j)) :=
  ⟨selectMarker_eq_neg_one_iff objId marker_info, selectMarker_found objId marker_info⟩

/-! ## The loop body and the object loop -/

theorem processObject_unmatched (L : Lib) (gotcloud_ : Bool) (cloud_ : PointCloud)
    (downsize : Nat) (header : Header) (marker_info : List ARMarkerInfo) (obj : ObjectData_T)
    (h : ∀ m ∈ marker_info, m.id ≠ obj.id) :
    processObject L gotcloud_ cloud_ downsize header marker_info obj =
      .ok ⟨{ obj with visible := 0 }, [], []⟩ := by
  unfold processObject
  simp only
  rw [if_pos ((selectMarker_eq_neg_one_iff _ _).mpr h)]

theorem processObject_matched (L : Lib) (gotcloud_ : Bool) (cloud_ : PointCloud)
    (downsize : Nat) (header : Header) (marker_info : List ARMarkerInfo) (obj : ObjectData_T)
    (k : Nat) (mk : ARMarkerInfo) (hk : selectMarker obj.id marker_info = (k : Int))
    (hmk : marker_info[k]? = some mk) :
    ∃ m0, marker_info[0]? = some m0 ∧
      processObject L gotcloud_ cloud_ downsize header marker_info obj =
        match depthRefine L gotcloud_ cloud_ downsize mk
            (convert L (requestTrans L k mk obj).1).1 (convert L (requestTrans L k mk obj).1).2 with
        | .abort => .abort
        | .undefined => .undefined
        | .ok (pos, quat, ev2) =>
          .ok ⟨{ obj with trans := (requestTrans L k mk obj).1, visible := 1 },
               [{ header := header, id := obj.id, position := pos, orientation := quat,
                  confidence := m0.cf }],
               (requestTrans L k mk obj).2 :: ev2 ++
                 [Event.push_back { header := header, id := obj.id, position := pos,
                                    orientation := quat, confidence := m0.cf }]⟩ := by
  have hlen : k < marker_info.length := by
    by_contra hge
    rw [List.getElem?_eq_none (not_lt.mp hge)] at hmk
    cases hmk
  have h0 : 0 < marker_info.length := by omega
  refine ⟨marker_info[0], List.getElem?_eq_getElem h0, ?_⟩
  unfold processObject
  simp only
  have hk1 : selectMarker obj.id marker_info ≠ -1 := by omega
  rw [if_neg hk1]
  have hkt : (selectMarker obj.id marker_info).toNat = k := by omega
  rw [hkt, hmk]
  simp only
  rcases depthRefine L gotcloud_ cloud_ downsize mk
      (convert L (requestTrans L k mk obj).1).1 (convert L (requestTrans L k mk obj).1).2
    with ⟨pos, quat, ev2⟩ | _ | _
  · simp only [List.getElem?_eq_getElem h0]
  · rfl
  · rfl

theorem objectLoop_length (body : ObjectData_T → Outcome IterResult) :
    ∀ (os : List ObjectData_T) (rs : List IterResult),
      objectLoop body os = .ok rs → rs.length = os.length
  | [], rs, h => by
    simp only [objectLoop, Outcome.ok.injEq] at h
    subst h
    rfl
  | o :: os, rs, h => by
    unfold objectLoop at h
    rcases hb : body o with r | _ | _
    · rw [hb] at h
      simp only at h
      rcases hl : objectLoop body os with rs' | _ | _
      · rw [hl] at h
        simp only [Outcome.ok.injEq] at h
        subst h
        simp [objectLoop_length body os rs' hl]
      · rw [hl] at h
        cases h
      · rw [hl] at h
        cases h
    · rw [hb] at h
      cases h
    · rw [hb] at h
      cases h

theorem objectLoop_get (body : ObjectData_T → Outcome IterResult) :
    ∀ (os : List ObjectData_T) (rs : List IterResult), objectLoop body os = .ok rs →
      ∀ (i : Nat) (o : ObjectData_T), os[i]? = some o →
        ∃ r, rs[i]? = some r ∧ body o = .ok r
  | [], _, _, i, o, ho => by simp at ho
  | o' :: os, rs, h, i, o, ho => by
    unfold objectLoop at h
    rcases hb : body o' with r | _ | _
    · rw [hb] at h
      simp only at h
      rcases hl : objectLoop body os with rs' | _ | _
      · rw [hl] at h
        simp only [Outcome.ok.injEq] at h
        subst h
        cases i with
        | zero =>
          simp only [List.getElem?_cons_zero, Option.some.injEq] at ho
          subst ho
          exact ⟨r, by simp, hb⟩
        | succ i =>
          simp only [List.getElem?_cons_succ] at ho
          obtain ⟨r', hr', hbr⟩ := objectLoop_get body os rs' hl i o ho
          exact ⟨r', by simpa using hr', hbr⟩
      · rw [hl] at h
        cases h
      · rw [hl] at h
        cases h
    · rw [hb] at h
      cases h
    · rw [hb] at h
      cases h

theorem objectLoop_get_inv (body : ObjectData_T → Outcome IterResult)
    (os : List ObjectData_T) (rs : List IterResult) (h : objectLoop body os = .ok rs)
    (i : Nat) (r : IterResult) (hr : rs[i]? = some r) :
    ∃ o, os[i]? = some o ∧ body o = .ok r := by
  have hlen := objectLoop_length body os rs h
  have hi : i < os.length := by
    by_contra hge
    rw [List.getElem?_eq_none (by omega)] at hr
    cases hr
  obtain ⟨r', hr', hb⟩ := objectLoop_get body os rs h i os[i] (List.getElem?_eq_getElem hi)
  rw [hr] at hr'
  cases hr'
  exact ⟨os[i], List.getElem?_eq_getElem hi, hb⟩

/-! ## The callback in terms of its loop iterations -/

theorem callback_ok (L : Lib) (st : ARPublisher) (image_msg : ImageMsg) (log : FrameLog)
    (h : getTransformationCallback L st image_msg = .ok log) :
    L.arDetectMarker (convertImage L st image_msg).1 st.threshold_ = some log.marker_info ∧
    ∃ rs, objectLoop (processObject L st.gotcloud_ st.cloud_
        (image_msg.width / st.cloud_width_) image_msg.header log.marker_info) st.object = .ok rs ∧
      log.iters = rs.map (fun r => r.events) ∧
      log.post.object = rs.map (fun r => r.object) ∧
      log.post.arPoseMarkers_ = (rs.map (fun r => r.markers)).flatten ∧
      log.head = (convertImage L st image_msg).2 ++
        [Event.arDetectMarker (convertImage L st image_msg).1] := by
  unfold getTransformationCallback at h
  simp only at h
  rcases hd : L.arDetectMarker (convertImage L st image_msg).1 st.threshold_ with _ | marker_info
  · rw [hd] at h
    cases h
  · rw [hd] at h
    simp only at h
    by_cases hw : st.cloud_width_ = 0
    · rw [if_pos hw] at h
      cases h
    · rw [if_neg hw] at h
      rcases hl : objectLoop (processObject L st.gotcloud_ st.cloud_
          (image_msg.width / st.cloud_width_) image_msg.header marker_info) st.object
        with rs | _ | _
      · rw [hl] at h
        simp only [Outcome.ok.injEq] at h
        subst h
        exact ⟨rfl, rs, hl, rfl, rfl, rfl, rfl⟩
      · rw [hl] at h
        cases h
      · rw [hl] at h
        cases h

/-- Iteration `i` of the object loop of a completed callback: the loop body returned for
`object[i]`, and its results are what the log and the new state hold at position `i`. -/
theorem callback_iter (L : Lib) (st : ARPublisher) (image_msg : ImageMsg) (log : FrameLog)
    (h : getTransformationCallback L st image_msg = .ok log)
    (i : Nat) (obj : ObjectData_T) (hobj : st.object[i]? = some obj) :
    ∃ r, processObject L st.gotcloud_ st.cloud_ (image_msg.width / st.cloud_width_)
        image_msg.header log.marker_info obj = .ok r ∧
      log.post.object[i]? = some r.object ∧ log.iters[i]? = some r.events := by
  obtain ⟨_, rs, hl, hit, hob, _, _⟩ := callback_ok L st image_msg log h
  obtain ⟨r, hr, hb⟩ := objectLoop_get _ _ _ hl i obj hobj
  refine ⟨r, hb, ?_, ?_⟩
  · rw [hob, List.getElem?_map, hr]
    rfl
  · rw [hit, List.getElem?_map, hr]
    rfl

/-- Every record published by a completed callback was pushed by a loop iteration. -/
theorem callback_marker_origin (L : Lib) (st : ARPublisher) (image_msg : ImageMsg)
    (log : FrameLog) (h : getTransformationCallback L st image_msg = .ok log)
    (m : ARMarker) (hm : m ∈ log.post.arPoseMarkers_) :
    ∃ (i : Nat) (obj : ObjectData_T) (r : IterResult), st.object[i]? = some obj ∧
      processObject L st.gotcloud_ st.cloud_ (image_msg.width / st.cloud_width_)
        image_msg.header log.marker_info obj = .ok r ∧ m ∈ r.markers := by
  obtain ⟨_, rs, hl, _, _, hmk, _⟩ := callback_ok L st image_msg log h
  rw [hmk, List.mem_flatten] at hm
  obtain ⟨ms, hms, hmem⟩ := hm
  rw [List.mem_map] at hms
  obtain ⟨r, hr, rfl⟩ := hms
  obtain ⟨i, hi⟩ := List.getElem?_of_mem hr
  obtain ⟨o, ho, hb⟩ := objectLoop_get_inv _ _ _ hl i r hi
  exact ⟨i, o, r, ho, hb, hmem⟩

/-- A record pushed by the loop body carries the id of its object, and that id is the id
of some candidate. -/
theorem processObject_marker_id (L : Lib) (gotcloud_ : Bool) (cloud_ : PointCloud)
    (downsize : Nat) (header : Header) (marker_info : List ARMarkerInfo) (obj : ObjectData_T)
    (r : IterResult)
    (h : processObject L gotcloud_ cloud_ downsize header marker_info obj = .ok r)
    (m : ARMarker) (hm : m ∈ r.markers) :
    m.id = obj.id ∧ ∃ c ∈ marker_info, c.id = obj.id := by
  by_cases hsel : selectMarker obj.id marker_info = -1
  · rw [processObject_unmatched _ _ _ _ _ _ _ ((selectMarker_eq_neg_one_iff _ _).mp hsel)] at h
    simp only [Outcome.ok.injEq] at h
    subst h
    simp at hm
  · obtain ⟨k, mk, hk, hmk, hid, _, _⟩ := selectMarker_found _ _ hsel
    obtain ⟨m0, _, hp⟩ := processObject_matched L gotcloud_ cloud_ downsize header
      marker_info obj k mk hk hmk
    rw [hp] at h
    rcases hd : depthRefine L gotcloud_ cloud_ downsize mk
        (convert L (requestTrans L k mk obj).1).1 (convert L (requestTrans L k mk obj).1).2
      with ⟨pos, quat, ev2⟩ | _ | _
    · rw [hd] at h
      simp only [Outcome.ok.injEq] at h
      subst h
      simp only [List.mem_singleton] at hm
      subst hm
      exact ⟨rfl, mk, List.getElem?_mem hmk, hid⟩
    · rw [hd] at h
      cases h
    · rw [hd] at h
      cases h

/-- A completed callback on an object without a candidate: the object only loses its
`visible` flag, its iteration has no events, and no published record carries its id. -/
theorem callback_unmatched (L : Lib) (st : ARPublisher) (image_msg : ImageMsg)
    (log : FrameLog) (i : Nat) (obj : ObjectData_T)
    (h : getTransformationCallback L st image_msg = .ok log)
    (hobj : st.object[i]? = some obj)
    (hno : ∀ c ∈ log.marker_info, c.id ≠ obj.id) :
    log.post.object[i]? = some { obj with visible := 0 } ∧
    log.iters[i]? = some [] ∧
    (∀ m ∈ log.post.arPoseMarkers_, m.id ≠ obj.id) := by
  obtain ⟨r, hr, hpo, hit⟩ := callback_iter L st image_msg log h i obj hobj
  rw [processObject_unmatched _ _ _ _ _ _ _ hno] at hr
  simp only [Outcome.ok.injEq] at hr
  subst hr
  refine ⟨hpo, hit, ?_⟩
  intro m hm hid
  obtain ⟨j, o, r, _, hp, hmr⟩ := callback_marker_origin L st image_msg log h m hm
  obtain ⟨hmid, c, hc, hcid⟩ := processObject_marker_id _ _ _ _ _ _ _ _ hp m hmr
  exact hno c hc (by rw [hcid, ← hmid, hid])

/-! ## C5: an object without a candidate -/

/-- C5: when a callback completes and no candidate of the frame has the id of `object[i]`,
then afterwards `object[i]` has `visible = 0` whatever it was before, its stored transform
(and every other field) is unchanged, iteration `i` of the loop made no library call and
pushed no record, and no record published for the frame carries that object's id. -/
theorem unmatched_object_hidden (L : Lib) (st : ARPublisher) (image_msg : ImageMsg)
    (log : FrameLog) (i : Nat) (obj : ObjectData_T)
    (h : getTransformationCallback L st image_msg = .ok log)
    (hobj : st.object[i]? = some obj)
    (hno : ∀ c ∈ log.marker_info, c.id ≠ obj.id) :
    log.post.object[i]? = some { obj with visible := 0 } ∧
    (∀ obj', log.post.object[i]? = some obj' → obj'.visible = 0 ∧ obj'.trans = obj.trans) ∧
    log.iters[i]? = some [] ∧
    (∀ m ∈ log.post.arPoseMarkers_, m.id ≠ obj.id) := by
  obtain ⟨hpo, hit, hpub⟩ := callback_unmatched L st image_msg log i obj h hobj hno
  refine ⟨hpo, ?_, hit, hpub⟩
  intro obj' hobj'
  rw [hpo] at hobj'
  simp only [Option.some.injEq] at hobj'
  subst hobj'
  exact ⟨rfl, rfl⟩

/-! ## C6: coordinate conversion -/

/-- C6: the converter yields the extracted translation scaled componentwise by
`AR_TO_ROS` and the extracted quaternion with x, y, z negated and w kept; its result is
determined by the extracted quaternion and translation (and the constant) alone; and for
zero translation with quaternion (0,0,0,1) it is the origin with quaternion (0,0,0,1). -/
theorem convert_scales_and_flips (L : Lib) (trans : Trans) :
    convert L trans =
      (⟨(L.arUtilMat2QuatPos trans).2.x * L.AR_TO_ROS,
        (L.arUtilMat2QuatPos trans).2.y * L.AR_TO_ROS,
        (L.arUtilMat2QuatPos trans).2.z * L.AR_TO_ROS⟩,
       ⟨-(L.arUtilMat2QuatPos trans).1.x, -(L.arUtilMat2QuatPos trans).1.y,
        -(L.arUtilMat2QuatPos trans).1.z, (L.arUtilMat2QuatPos trans).1.w⟩) ∧
    (∀ (L' : Lib) (trans' : Trans), L'.AR_TO_ROS = L.AR_TO_ROS →
      L'.arUtilMat2QuatPos trans' = L.arUtilMat2QuatPos trans →
      convert L' trans' = convert L trans) ∧
    (L.arUtilMat2QuatPos trans = (⟨0, 0, 0, 1⟩, ⟨0, 0, 0⟩) →
      convert L trans = (⟨0, 0, 0⟩, ⟨0, 0, 0, 1⟩)) := by
  refine ⟨rfl, ?_, ?_⟩
  · intro L' trans' hc he
    simp only [convert, hc, he]
  · intro hid
    simp only [convert, hid, zero_mul, neg_zero]

/-! ## Depth refinement: the three ways through lines 228-252 -/

theorem depthRefine_nocloud (L : Lib) (cloud_ : PointCloud) (downsize : Nat)
    (mk : ARMarkerInfo) (pos : Vec3) (quat : Quat) :
    depthRefine L false cloud_ downsize mk pos quat = .ok (pos, quat, []) := by
  simp [depthRefine]

theorem depthRefine_nan (L : Lib) (cloud_ : PointCloud) (downsize : Nat)
    (mk : ARMarkerInfo) (pos : Vec3) (quat : Quat) (col row : Int)
    (point : PointXYZRGBNormal)
    (hcol : cellIndex mk.pos.1 downsize = some col)
    (hrow : cellIndex mk.pos.2 downsize = some row)
    (hpt : cloud_.at col row = some point)
    (hnan : point.x = none ∨ point.y = none ∨ point.z = none) :
    depthRefine L true cloud_ downsize mk pos quat =
      .ok (pos, quat, [Event.cloudRead col row]) := by
  unfold depthRefine
  rw [if_pos rfl, hcol, hrow]
  simp only [hpt]
  rcases hx : point.x with _ | px <;> rcases hy : point.y with _ | py <;>
    rcases hz : point.z with _ | pz <;> simp_all

theorem depthRefine_valid (L : Lib) (cloud_ : PointCloud) (downsize : Nat)
    (mk : ARMarkerInfo) (pos : Vec3) (quat : Quat) (col row : Int)
    (point : PointXYZRGBNormal) (px py pz : ℚ)
    (hcol : cellIndex mk.pos.1 downsize = some col)
    (hrow : cellIndex mk.pos.2 downsize = some row)
    (hpt : cloud_.at col row = some point)
    (hx : point.x = some px) (hy : point.y = some py) (hz : point.z = some pz) :
    depthRefine L true cloud_ downsize mk pos quat =
      .ok (⟨px, py, pz⟩, quat, [Event.cloudRead col row]) := by
  unfold depthRefine
  rw [if_pos rfl, hcol, hrow]
  simp only [hpt, hx, hy, hz]

/-! ## C7: no valid depth sample -/

/-- C7: for an object whose selected candidate is `marker_info[k]`, when no cloud has been
received (`gotcloud_` false) or the cloud point looked up for the candidate has NaN in x,
y or z, the loop body completes and pushes exactly one record, whose position and
orientation are the converter's position and quaternion for the transform just stored. -/
theorem no_depth_keeps_converter_pose (L : Lib) (gotcloud_ : Bool) (cloud_ : PointCloud)
    (downsize : Nat) (header : Header) (marker_info : List ARMarkerInfo) (obj : ObjectData_T)
    (k : Nat) (mk : ARMarkerInfo) (hk : selectMarker obj.id marker_info = (k : Int))
    (hmk : marker_info[k]? = some mk)
    (hno : gotcloud_ = false ∨
      ∃ (col row : Int) (point : PointXYZRGBNormal),
        cellIndex mk.pos.1 downsize = some col ∧ cellIndex mk.pos.2 downsize = some row ∧
        cloud_.at col row = some point ∧
        (point.x = none ∨ point.y = none ∨ point.z = none)) :
    ∃ (r : IterResult) (m : ARMarker),
      processObject L gotcloud_ cloud_ downsize header marker_info obj = .ok r ∧
      r.markers = [m] ∧ Event.push_back m ∈ r.events ∧
      r.object.trans = (requestTrans L k mk obj).1 ∧
      m.position = (convert L r.object.trans).1 ∧
      m.orientation = (convert L r.object.trans).2 := by
  obtain ⟨m0, _, hp⟩ := processObject_matched L gotcloud_ cloud_ downsize header
    marker_info obj k mk hk hmk
  have hd : ∃ ev2, depthRefine L gotcloud_ cloud_ downsize mk
      (convert L (requestTrans L k mk obj).1).1 (convert L (requestTrans L k mk obj).1).2 =
      .ok ((convert L (requestTrans L k mk obj).1).1,
           (convert L (requestTrans L k mk obj).1).2, ev2) := by
    cases gotcloud_ with
    | false => exact ⟨[], depthRefine_nocloud _ _ _ _ _ _⟩
    | true =>
      rcases hno with hf | ⟨col, row, point, hcol, hrow, hpt, hnan⟩
      · cases hf
      · exact ⟨_, depthRefine_nan _ _ _ _ _ _ col row point hcol hrow hpt hnan⟩
  obtain ⟨ev2, hd⟩ := hd
  rw [hd] at hp
  exact ⟨_, _, hp, rfl, by simp, rfl, rfl, rfl⟩

/-! ## Pose tracking: what one frame does to one object -/

theorem depthRefine_events (L : Lib) (gotcloud_ : Bool) (cloud_ : PointCloud)
    (downsize : Nat) (mk : ARMarkerInfo) (pos : Vec3) (quat : Quat)
    (pos' : Vec3) (quat' : Quat) (ev2 : List Event)
    (h : depthRefine L gotcloud_ cloud_ downsize mk pos quat = .ok (pos', quat', ev2)) :
    ∀ e ∈ ev2, ∃ (col row : Int), e = Event.cloudRead col row := by
  unfold depthRefine at h
  split at h
  · split at h
    · split at h
      · cases h
      · split at h <;>
          · simp only [Outcome.ok.injEq, Prod.mk.injEq] at h
            obtain ⟨_, _, rfl⟩ := h
            intro e he
            simp only [List.mem_singleton] at he
            exact ⟨_, _, he⟩
    · cases h
  · simp only [Outcome.ok.injEq, Prod.mk.injEq] at h
    obtain ⟨_, _, rfl⟩ := h
    intro e he
    simp at he

theorem requestTrans_event (L : Lib) (k : Nat) (mk : ARMarkerInfo) (obj : ObjectData_T) :
    (obj.visible = 0 → (requestTrans L k mk obj).2 = Event.arGetTransMat k) ∧
    (obj.visible ≠ 0 → (requestTrans L k mk obj).2 = Event.arGetTransMatCont k obj.trans) := by
  constructor
  · intro h
    simp [requestTrans, h]
  · intro h
    simp [requestTrans, h]

/-- The loop body on a matched object: the object keeps its id, becomes visible, stores
the requested transform, and the only transform request among the events of the iteration
is the one of `requestTrans`. -/
theorem processObject_track_matched (L : Lib) (gotcloud_ : Bool) (cloud_ : PointCloud)
    (downsize : Nat) (header : Header) (marker_info : List ARMarkerInfo) (obj : ObjectData_T)
    (r : IterResult) (k : Nat)
    (h : processObject L gotcloud_ cloud_ downsize header marker_info obj = .ok r)
    (hk : selectMarker obj.id marker_info = (k : Int)) :
    ∃ mk, marker_info[k]? = some mk ∧
      r.object = { obj with trans := (requestTrans L k mk obj).1, visible := 1 } ∧
      requests r.events = [(requestTrans L k mk obj).2] ∧
      (∀ e ∈ r.events, e = (requestTrans L k mk obj).2 ∨
        (∀ (j : Nat) (t : Trans), e ≠ Event.arGetTransMatCont j t)) := by
  have hsel : selectMarker obj.id marker_info ≠ -1 := by omega
  obtain ⟨k', mk, hk', hmk, _⟩ := selectMarker_found _ _ hsel
  have hkk : k' = k := by omega
  subst hkk
  obtain ⟨m0, _, hp⟩ := processObject_matched L gotcloud_ cloud_ downsize header
    marker_info obj k' mk hk hmk
  rw [hp] at h
  rcases hd : depthRefine L gotcloud_ cloud_ downsize mk
      (convert L (requestTrans L k' mk obj).1).1 (convert L (requestTrans L k' mk obj).1).2
    with ⟨pos, quat, ev2⟩ | _ | _
  · rw [hd] at h
    simp only [Outcome.ok.injEq] at h
    subst h
    have hev := depthRefine_events _ _ _ _ _ _ _ _ _ _ hd
    have hreq : requests (ev2 ++ [Event.push_back
        { header := header, id := obj.id, position := pos, orientation := quat,
          confidence := m0.cf }]) = [] := by
      unfold requests
      rw [List.filter_eq_nil_iff]
      intro e he
      rcases List.mem_append.mp he with he | he
      · obtain ⟨col, row, rfl⟩ := hev e he
        simp
      · simp only [List.mem_singleton] at he
        subst he
        simp
    refine ⟨mk, hmk, rfl, ?_, ?_⟩
    · have hhead : requests [(requestTrans L k' mk obj).2] = [(requestTrans L k' mk obj).2] := by
        by_cases hv : obj.visible = 0
        · rw [(requestTrans_event L k' mk obj).1 hv]
          rfl
        · rw [(requestTrans_event L k' mk obj).2 hv]
          rfl
      show requests ([(requestTrans L k' mk obj).2] ++ (ev2 ++ _)) = _
      unfold requests at hreq hhead ⊢
      rw [List.filter_append, hreq, hhead]
      rfl
    · intro e he
      simp only [List.cons_append, List.mem_cons, List.mem_append, List.mem_singleton] at he
      rcases he with he | he | he
      · exact Or.inl he
      · obtain ⟨col, row, rfl⟩ := hev e he
        exact Or.inr (fun _ _ hc => by cases hc)
      · simp only [List.not_mem_nil, or_false] at he
        exact Or.inr (fun _ _ hc => by rw [he] at hc; cases hc)
  · rw [hd] at h
    cases h
  · rw [hd] at h
    cases h

/-- After a completed callback, `object[i]` keeps its id, and its `visible` flag is 0
exactly when no candidate of the frame has its id. -/
theorem callback_visible (L : Lib) (st : ARPublisher) (image_msg : ImageMsg) (log : FrameLog)
    (h : getTransformationCallback L st image_msg = .ok log)
    (i : Nat) (obj : ObjectData_T) (hobj : st.object[i]? = some obj) :
    ∃ obj', log.post.object[i]? = some obj' ∧ obj'.id = obj.id ∧
      (obj'.visible = 0 ↔ ∀ c ∈ log.marker_info, c.id ≠ obj.id) := by
  obtain ⟨r, hr, hpo, _⟩ := callback_iter L st image_msg log h i obj hobj
  refine ⟨r.object, hpo, ?_⟩
  by_cases hsel : selectMarker obj.id log.marker_info = -1
  · have hno := (selectMarker_eq_neg_one_iff _ _).mp hsel
    rw [processObject_unmatched _ _ _ _ _ _ _ hno] at hr
    simp only [Outcome.ok.injEq] at hr
    subst hr
    exact ⟨rfl, fun _ => hno, fun _ => rfl⟩
  · obtain ⟨k, mk, hk, _⟩ := selectMarker_found _ _ hsel
    obtain ⟨mk', _, hro, _⟩ := processObject_track_matched _ _ _ _ _ _ _ _ k hr hk
    rw [hro]
    refine ⟨rfl, fun hv => ?_, fun hno => ?_⟩
    · simp at hv
    · exact absurd ((selectMarker_eq_neg_one_iff _ _).mpr hno) hsel

/-- The transform request of iteration `i` in a completed callback, for an object whose
selected candidate index is `k`. -/
theorem callback_request (L : Lib) (st : ARPublisher) (image_msg : ImageMsg) (log : FrameLog)
    (h : getTransformationCallback L st image_msg = .ok log)
    (i : Nat) (obj : ObjectData_T) (hobj : st.object[i]? = some obj)
    (k : Nat) (hk : selectMarker obj.id log.marker_info = (k : Int)) :
    ∃ mk, log.marker_info[k]? = some mk ∧
      log.iters[i]?.map requests = some [(requestTrans L k mk obj).2] ∧
      (∀ evs, log.iters[i]? = some evs → ∀ e ∈ evs, e = (requestTrans L k mk obj).2 ∨
        (∀ (j : Nat) (t : Trans), e ≠ Event.arGetTransMatCont j t)) := by
  obtain ⟨r, hr, _, hit⟩ := callback_iter L st image_msg log h i obj hobj
  obtain ⟨mk, hmk, _, hreq, hev⟩ := processObject_track_matched _ _ _ _ _ _ _ _ k hr hk
  refine ⟨mk, hmk, ?_, ?_⟩
  · rw [hit, Option.map_some', hreq]
  · intro evs hevs
    rw [hit] at hevs
    cases hevs
    exact hev

/-- In a completed callback, iteration `i` makes no continuity request when `object[i]`
enters the frame with `visible = 0`. -/
theorem callback_no_cont (L : Lib) (st : ARPublisher) (image_msg : ImageMsg) (log : FrameLog)
    (h : getTransformationCallback L st image_msg = .ok log)
    (i : Nat) (obj : ObjectData_T) (hobj : st.object[i]? = some obj) (hvis : obj.visible = 0)
    (evs : List Event) (hevs : log.iters[i]? = some evs) :
    ∀ e ∈ evs, ∀ (j : Nat) (t : Trans), e ≠ Event.arGetTransMatCont j t := by
  by_cases hsel : selectMarker obj.id log.marker_info = -1
  · have hno := (selectMarker_eq_neg_one_iff _ _).mp hsel
    have hnil := (callback_unmatched L st image_msg log i obj h hobj hno).2.1
    rw [hnil] at hevs
    cases hevs
    intro e he
    simp at he
  · obtain ⟨k, _, hk, _⟩ := selectMarker_found _ _ hsel
    obtain ⟨mk, _, _, hall⟩ := callback_request L st image_msg log h i obj hobj k hk
    intro e he j t
    rcases hall evs hevs e he with heq | hne
    · rw [heq, (requestTrans_event L k mk obj).1 hvis]
      intro hc
      cases hc
    · exact hne j t

/-! ## Sequences of frames -/

theorem runFrames_cons (L : Lib) (st : ARPublisher) (m : ImageMsg) (ms : List ImageMsg)
    (logs : List FrameLog) (h : runFrames L st (m :: ms) = .ok logs) :
    ∃ log rest, getTransformationCallback L st m = .ok log ∧
      runFrames L log.post ms = .ok rest ∧ logs = log :: rest := by
  unfold runFrames at h
  rcases hc : getTransformationCallback L st m with log | _ | _
  · rw [hc] at h
    simp only at h
    rcases hr : runFrames L log.post ms with rest | _ | _
    · rw [hr] at h
      simp only [Outcome.ok.injEq] at h
      exact ⟨log, rest, rfl, hr, h.symm⟩
    · rw [hr] at h
      cases h
    · rw [hr] at h
      cases h
  · rw [hc] at h
    cases h
  · rw [hc] at h
    cases h

theorem runFrames_first (L : Lib) (st : ARPublisher) (msgs : List ImageMsg)
    (logs : List FrameLog) (h : runFrames L st msgs = .ok logs)
    (log : FrameLog) (hlog : logs[0]? = some log) :
    ∃ m, getTransformationCallback L st m = .ok log := by
  cases msgs with
  | nil =>
    simp only [runFrames, Outcome.ok.injEq] at h
    subst h
    simp at hlog
  | cons m ms =>
    obtain ⟨log0, rest, hc, _, rfl⟩ := runFrames_cons L st m ms logs h
    simp only [List.getElem?_cons_zero, Option.some.injEq] at hlog
    subst hlog
    exact ⟨m, hc⟩

theorem runFrames_adjacent (L : Lib) :
    ∀ (msgs : List ImageMsg) (st : ARPublisher) (logs : List FrameLog),
      runFrames L st msgs = .ok logs →
      ∀ (n : Nat) (prev log : FrameLog), logs[n]? = some prev → logs[n + 1]? = some log →
        ∃ m, getTransformationCallback L prev.post m = .ok log
  | [], _, logs, h, n, prev, _, hprev, _ => by
    simp only [runFrames, Outcome.ok.injEq] at h
    subst h
    simp at hprev
  | m :: ms, st, logs, h, n, prev, log, hprev, hlog => by
    obtain ⟨log0, rest, _, hr, rfl⟩ := runFrames_cons L st m ms logs h
    simp only [List.getElem?_cons_succ] at hlog
    cases n with
    | zero =>
      simp only [List.getElem?_cons_zero, Option.some.injEq] at hprev
      subst hprev
      exact runFrames_first L log0.post ms rest hr log hlog
    | succ n =>
      simp only [List.getElem?_cons_succ] at hprev
      exact runFrames_adjacent L ms log0.post rest hr n prev log hprev hlog

/-- Along a completed run, `object[i]` keeps its id, and after each frame its `visible`
flag is 0 exactly when that frame had no candidate with its id. -/
theorem runFrames_object (L : Lib) :
    ∀ (msgs : List ImageMsg) (st : ARPublisher) (logs : List FrameLog),
      runFrames L st msgs = .ok logs →
      ∀ (i : Nat) (obj : ObjectData_T), st.object[i]? = some obj →
      ∀ (n : Nat) (log : FrameLog), logs[n]? = some log →
        ∃ o, log.post.object[i]? = some o ∧ o.id = obj.id ∧
          (o.visible = 0 ↔ ∀ c ∈ log.marker_info, c.id ≠ obj.id)
  | [], _, logs, h, _, _, _, n, log, hlog => by
    simp only [runFrames, Outcome.ok.injEq] at h
    subst h
    simp at hlog
  | m :: ms, st, logs, h, i, obj, hobj, n, log, hlog => by
    obtain ⟨log0, rest, hc, hr, rfl⟩ := runFrames_cons L st m ms logs h
    obtain ⟨o0, ho0, hid0, hv0⟩ := callback_visible L st m log0 hc i obj hobj
    cases n with
    | zero =>
      simp only [List.getElem?_cons_zero, Option.some.injEq] at hlog
      subst hlog
      exact ⟨o0, ho0, hid0, hv0⟩
    | succ n =>
      simp only [List.getElem?_cons_succ] at hlog
      obtain ⟨o, ho, hid, hv⟩ := runFrames_object L ms log0.post rest hr i o0 ho0 n log hlog
      rw [hid0] at hid hv
      exact ⟨o, ho, hid, hv⟩

/-! ## C4: fresh or continuity estimate -/

/-- C4: along a completed run of frames that starts with `object[i]` not visible, in a
frame where the object has a matching candidate, with `k` the selected index: in the
first frame the only transform request of iteration `i` is the fresh one
(`arGetTransMat`); in a later frame it is the fresh one exactly when the preceding frame
had no candidate with the object's id, and otherwise it is the continuity one
(`arGetTransMatCont`) with, as previous transform, the transform the preceding frame left
in `object[i]`. In every frame up to and including the object's first detection,
iteration `i` makes no continuity request, so the stored transform is not read. -/
theorem fresh_iff_unseen_last_frame (L : Lib) (st : ARPublisher) (msgs : List ImageMsg)
    (logs : List FrameLog) (i : Nat) (obj : ObjectData_T)
    (hrun : runFrames L st msgs = .ok logs)
    (hobj : st.object[i]? = some obj) (hvis : obj.visible = 0) :
    (∀ (log : FrameLog), logs[0]? = some log →
      (∃ c ∈ log.marker_info, c.id = obj.id) →
      ∃ (k : Nat), selectMarker obj.id log.marker_info = (k : Int) ∧
        log.iters[i]?.map requests = some [Event.arGetTransMat k]) ∧
    (∀ (n : Nat) (prev log : FrameLog),
      logs[n]? = some prev → logs[n + 1]? = some log →
      (∃ c ∈ log.marker_info, c.id = obj.id) →
      ∃ (k : Nat), selectMarker obj.id log.marker_info = (k : Int) ∧
        (log.iters[i]?.map requests = some [Event.arGetTransMat k] ↔
          ∀ c ∈ prev.marker_info, c.id ≠ obj.id) ∧
        ((∃ c ∈ prev.marker_info, c.id = obj.id) →
          ∃ prevObj, prev.post.object[i]? = some prevObj ∧
            log.iters[i]?.map requests =
              some [Event.arGetTransMatCont k prevObj.trans])) ∧
    (∀ (n : Nat) (log : FrameLog) (evs : List Event), logs[n]? = some log →
      (∀ (m : Nat) (p : FrameLog), m < n → logs[m]? = some p →
        ∀ c ∈ p.marker_info, c.id ≠ obj.id) →
      log.iters[i]? = some evs →
      ∀ e ∈ evs, ∀ (j : Nat) (t : Trans), e ≠ Event.arGetTransMatCont j t) := by
  have hsel : ∀ (log : FrameLog), (∃ c ∈ log.marker_info, c.id = obj.id) →
      ∃ (k : Nat), selectMarker obj.id log.marker_info = (k : Int) := by
    rintro log ⟨c, hc, hcid⟩
    have hne : selectMarker obj.id log.marker_info ≠ -1 := fun h =>
      (selectMarker_eq_neg_one_iff _ _).mp h c hc hcid
    obtain ⟨k, _, hk, _⟩ := selectMarker_found _ _ hne
    exact ⟨k, hk⟩
  refine ⟨?_, ?_, ?_⟩
  · intro log hlog hmatch
    obtain ⟨k, hk⟩ := hsel log hmatch
    obtain ⟨m, hc⟩ := runFrames_first L st msgs logs hrun log hlog
    obtain ⟨mk, _, hreq, _⟩ := callback_request L st m log hc i obj hobj k hk
    refine ⟨k, hk, ?_⟩
    rw [hreq, (requestTrans_event L k mk obj).1 hvis]
  · intro n prev log hprev hlog hmatch
    obtain ⟨k, hk⟩ := hsel log hmatch
    refine ⟨k, hk, ?_⟩
    obtain ⟨m, hc⟩ := runFrames_adjacent L msgs st logs hrun n prev log hprev hlog
    obtain ⟨o, ho, hid, hv⟩ := runFrames_object L msgs st logs hrun i obj hobj n prev hprev
    rw [← hid] at hk
    obtain ⟨mk, _, hreq, _⟩ := callback_request L prev.post m log hc i o ho k hk
    by_cases hseen : ∀ c ∈ prev.marker_info, c.id ≠ obj.id
    · have hv0 : o.visible = 0 := hv.mpr hseen
      rw [(requestTrans_event L k mk o).1 hv0] at hreq
      refine ⟨⟨fun _ => hseen, fun _ => hreq⟩, ?_⟩
      rintro ⟨c, hc', hcid⟩
      exact absurd hcid (hseen c hc')
    · have hv1 : o.visible ≠ 0 := fun hv0 => hseen (hv.mp hv0)
      rw [(requestTrans_event L k mk o).2 hv1] at hreq
      refine ⟨⟨fun hfresh => ?_, fun hno => absurd hno hseen⟩, fun _ => ⟨o, ho, hreq⟩⟩
      rw [hreq] at hfresh
      simp at hfresh
  · intro n log evs hlog hbefore hevs
    cases n with
    | zero =>
      obtain ⟨m, hc⟩ := runFrames_first L st msgs logs hrun log hlog
      exact callback_no_cont L st m log hc i obj hobj hvis evs hevs
    | succ n =>
      have hn : n < logs.length := by
        by_contra hge
        rw [List.getElem?_eq_none (by omega)] at hlog
        cases hlog
      have hprev : logs[n]? = some logs[n] := List.getElem?_eq_getElem hn
      obtain ⟨m, hc⟩ := runFrames_adjacent L msgs st logs hrun n logs[n] log hprev hlog
      obtain ⟨o, ho, hid, hv⟩ := runFrames_object L msgs st logs hrun i obj hobj n logs[n] hprev
      have hv0 : o.visible = 0 := hv.mpr (hbefore n logs[n] (Nat.lt_succ_self n) hprev)
      exact callback_no_cont L logs[n].post m log hc i o ho hv0 evs hevs

/-- Witness for C1: among four candidates, index 1 is the first candidate of id 5 with the
highest confidence of that id. -/
theorem selectMarker_first_maximal_witness :
    selectMarker 5 (stubDetect [3, 90, 0, 0, 5, 80, 1, 1, 5, 80, 2, 2, 5, 50, 3, 3]) ≠ -1 ∧
    ∃ (k : Nat) (mk : ARMarkerInfo),
      selectMarker 5 (stubDetect [3, 90, 0, 0, 5, 80, 1, 1, 5, 80, 2, 2, 5, 50, 3, 3]) = (k : Int) ∧
      (stubDetect [3, 90, 0, 0, 5, 80, 1, 1, 5, 80, 2, 2, 5, 50, 3, 3])[k]? = some mk ∧
      mk.id = 5 ∧
      (∀ (j : Nat) (mj : ARMarkerInfo),
        (stubDetect [3, 90, 0, 0, 5, 80, 1, 1, 5, 80, 2, 2, 5, 50, 3, 3])[j]? = some mj →
        mj.id = 5 → mj.cf ≤ mk.cf) ∧
      (∀ (j : Nat) (mj : ARMarkerInfo),
        (stubDetect [3, 90, 0, 0, 5, 80, 1, 1, 5, 80, 2, 2, 5, 50, 3, 3])[j]? = some mj →
        mj.id = 5 → mj.cf = mk.cf → k ≤ j) :=
  ⟨by decide!, (selectMarker_first_maximal 5 _).2 (by decide!)⟩

/-- Witness for C4: the run of `fourFrames` from `startState` completes with `fourLogs`,
the object starts not visible, and the requests of the four frames are fresh, continuity
(from the transform of frame 1), none, fresh. -/
theorem fresh_iff_unseen_last_frame_witness :
    runFrames stubLib startState fourFrames = .ok fourLogs ∧
    fourLogs.map (fun log => log.iters.map requests) =
      [[[Event.arGetTransMat 0]], [[Event.arGetTransMatCont 0 [0, 0, 1000]]], [[]],
       [[Event.arGetTransMat 0]]] ∧
    ((∀ (log : FrameLog), fourLogs[0]? = some log →
      (∃ c ∈ log.marker_info, c.id = marker5.id) →
      ∃ (k : Nat), selectMarker marker5.id log.marker_info = (k : Int) ∧
        log.iters[0]?.map requests = some [Event.arGetTransMat k]) ∧
    (∀ (n : Nat) (prev log : FrameLog),
      fourLogs[n]? = some prev → fourLogs[n + 1]? = some log →
      (∃ c ∈ log.marker_info, c.id = marker5.id) →
      ∃ (k : Nat), selectMarker marker5.id log.marker_info = (k : Int) ∧
        (log.iters[0]?.map requests = some [Event.arGetTransMat k] ↔
          ∀ c ∈ prev.marker_info, c.id ≠ marker5.id) ∧
        ((∃ c ∈ prev.marker_info, c.id = marker5.id) →
          ∃ prevObj, prev.post.object[0]? = some prevObj ∧
            log.iters[0]?.map requests =
              some [Event.arGetTransMatCont k prevObj.trans])) ∧
    (∀ (n : Nat) (log : FrameLog) (evs : List Event), fourLogs[n]? = some log →
      (∀ (m : Nat) (p : FrameLog), m < n → fourLogs[m]? = some p →
        ∀ c ∈ p.marker_info, c.id ≠ marker5.id) →
      log.iters[0]? = some evs →
      ∀ e ∈ evs, ∀ (j : Nat) (t : Trans), e ≠ Event.arGetTransMatCont j t)) :=
  ⟨by decide!, by decide!,
   fresh_iff_unseen_last_frame stubLib startState fourFrames fourLogs 0 marker5
     (by decide!) (by decide!) (by decide!)⟩

/-- Witness for C5: marker 5 was visible with a stored transform; a frame showing only
marker 3 leaves it not visible with the same transform and publishes nothing. -/
theorem unmatched_object_hidden_witness :
    getTransformationCallback stubLib seenState (imageMsg 2 640 "bgr8" [3, 90, 0, 0]) =
      .ok { marker_info := stubDetect [3, 90, 0, 0]
            head := [Event.arDetectMarker [3, 90, 0, 0]]
            iters := [[]]
            post := { seenState with
                      object := [{ marker5 with visible := 0, trans := [0, 0, 1000] }]
                      capture_ := [3, 90, 0, 0] } } ∧
    (∀ obj', [{ marker5 with visible := 0, trans := [0, 0, 1000] }][0]? = some obj' →
      obj'.visible = 0 ∧ obj'.trans = [0, 0, 1000]) ∧
    (∀ m ∈ ([] : List ARMarker), m.id ≠ 5) :=
  ⟨by decide!,
   (unmatched_object_hidden stubLib seenState (imageMsg 2 640 "bgr8" [3, 90, 0, 0])
      { marker_info := stubDetect [3, 90, 0, 0]
        head := [Event.arDetectMarker [3, 90, 0, 0]]
        iters := [[]]
        post := { seenState with
                  object := [{ marker5 with visible := 0, trans := [0, 0, 1000] }]
                  capture_ := [3, 90, 0, 0] } }
      0 { marker5 with visible := 1, trans := [0, 0, 1000] }
      (by decide!) (by decide!) (by decide!)).2.1,
   (unmatched_object_hidden stubLib seenState (imageMsg 2 640 "bgr8" [3, 90, 0, 0])
      { marker_info := stubDetect [3, 90, 0, 0]
        head := [Event.arDetectMarker [3, 90, 0, 0]]
        iters := [[]]
        post := { seenState with
                  object := [{ marker5 with visible := 0, trans := [0, 0, 1000] }]
                  capture_ := [3, 90, 0, 0] } }
      0 { marker5 with visible := 1, trans := [0, 0, 1000] }
      (by decide!) (by decide!) (by decide!)).2.2.2⟩

/-- Witness for C6: a transform whose extracted translation is zero and whose extracted
quaternion is (0,0,0,1) converts to the origin with quaternion (0,0,0,1). -/
theorem convert_scales_and_flips_witness :
    stubLib.arUtilMat2QuatPos [0, 0, 0] = (⟨0, 0, 0, 1⟩, ⟨0, 0, 0⟩) ∧
    convert stubLib [0, 0, 0] = (⟨0, 0, 0⟩, ⟨0, 0, 0, 1⟩) :=
  ⟨by decide!, (convert_scales_and_flips stubLib [0, 0, 0]).2.2 (by decide!)⟩

/-- Witness for C7: a cloud has been received but the cell under the candidate's centroid
(1, 0) has NaN in x; the record carries the converter's pose. -/
theorem no_depth_keeps_converter_pose_witness :
    selectMarker marker5.id (stubDetect [5, 80, 1, 0]) = ((0 : Nat) : Int) ∧
    kinectCloud.at 1 0 = some nanPoint ∧
    ∃ (r : IterResult) (m : ARMarker),
      processObject stubLib true kinectCloud 1 ⟨"camera", 1⟩ (stubDetect [5, 80, 1, 0])
        marker5 = .ok r ∧
      r.markers = [m] ∧ Event.push_back m ∈ r.events ∧
      r.object.trans = (requestTrans stubLib 0 ⟨0, 5, 0, 4 / 5, (1, 0), [], []⟩ marker5).1 ∧
      m.position = (convert stubLib r.object.trans).1 ∧
      m.orientation = (convert stubLib r.object.trans).2 :=
  ⟨by decide!, by decide!,
   no_depth_keeps_converter_pose stubLib true kinectCloud 1 ⟨"camera", 1⟩
     (stubDetect [5, 80, 1, 0]) marker5 0 ⟨0, 5, 0, 4 / 5, (1, 0), [], []⟩
     (by decide!) (by decide!)
     (Or.inr ⟨1, 0, nanPoint, by decide!, by decide!, by decide!, Or.inl rfl⟩)⟩

/-! ## C2: the confidence of the published record -/

/-- A record pushed by the loop body carries the confidence of `marker_info[0]`, the
first candidate of the frame, whichever candidate was selected (line 270). -/
theorem processObject_confidence (L : Lib) (gotcloud_ : Bool) (cloud_ : PointCloud)
    (downsize : Nat) (header : Header) (marker_info : List ARMarkerInfo) (obj : ObjectData_T)
    (r : IterResult)
    (h : processObject L gotcloud_ cloud_ downsize header marker_info obj = .ok r)
    (m : ARMarker) (hm : m ∈ r.markers) :
    marker_info[0]?.map (fun c => c.cf) = some m.confidence := by
  by_cases hsel : selectMarker obj.id marker_info = -1
  · rw [processObject_unmatched _ _ _ _ _ _ _ ((selectMarker_eq_neg_one_iff _ _).mp hsel)] at h
    simp only [Outcome.ok.injEq] at h
    subst h
    simp at hm
  · obtain ⟨k, mk, hk, hmk, _⟩ := selectMarker_found _ _ hsel
    obtain ⟨m0, hm0, hp⟩ := processObject_matched L gotcloud_ cloud_ downsize header
      marker_info obj k mk hk hmk
    rw [hp] at h
    rcases hd : depthRefine L gotcloud_ cloud_ downsize mk
        (convert L (requestTrans L k mk obj).1).1 (convert L (requestTrans L k mk obj).1).2
      with ⟨pos, quat, ev2⟩ | _ | _
    · rw [hd] at h
      simp only [Outcome.ok.injEq] at h
      subst h
      simp only [List.mem_singleton] at hm
      subst hm
      rw [hm0]
      rfl
    · rw [hd] at h
      cases h
    · rw [hd] at h
      cases h

/-- C2, the code on a concrete frame: the candidates are (id 3, confidence 3/10) and
(id 5, confidence 4/5) and the tracked object has id 5. The selection picks index 1, whose
confidence is 4/5, and the record published for the object carries confidence 3/10, the
confidence of the candidate at index 0. -/
theorem published_confidence_is_first_candidate :
    selectMarker 5 (stubDetect [3, 30, 0, 0, 5, 80, 0, 0]) = 1 ∧
    ((stubDetect [3, 30, 0, 0, 5, 80, 0, 0])[1]?).map (fun c => c.cf) = some (4 / 5) ∧
    (getTransformationCallback stubLib startState
        (imageMsg 1 640 "bgr8" [3, 30, 0, 0, 5, 80, 0, 0])).toOption.map
          (fun log => log.post.arPoseMarkers_) =
      some [{ header := ⟨"camera", 1⟩, id := 5, position := ⟨0, 0, 1⟩,
              orientation := ⟨0, 0, 0, 1⟩, confidence := 3 / 10 }] := by
  decide!

/-! ## C3: the orientation after a valid depth sample -/

/-- C3, the code: the callback does not depend on the axis-angle constructor at all (the
quaternion `r` of line 244 is computed and dropped). On a concrete frame with a valid
cloud cell of normal (0, 3/5, 4/5) under the candidate, the converter's quaternion is
`q = (0,0,0,1)`, the record takes the cell's position (1,2,3) and orientation `q`, while
the corrected quaternion `c * q` is the constructor's value at axis (-3/5, 0, 0) and
angle 4/5. -/
theorem published_orientation_ignores_correction (ctor : Vec3 → ℚ → Quat) :
    (∀ (L : Lib) (st : ARPublisher) (image_msg : ImageMsg),
      getTransformationCallback { L with btAxisAngle := ctor } st image_msg =
        getTransformationCallback L st image_msg) ∧
    (getTransformationCallback { stubLib with btAxisAngle := ctor } cloudState
        (imageMsg 1 160 "bgr8" [5, 80, 0, 0])).toOption.map
          (fun log => log.post.arPoseMarkers_) =
      some [{ header := ⟨"camera", 1⟩, id := 5, position := ⟨1, 2, 3⟩,
              orientation := ⟨0, 0, 0, 1⟩, confidence := 4 / 5 }] ∧
    (convert { stubLib with btAxisAngle := ctor } [0, 0, 1000]).2 = ⟨0, 0, 0, 1⟩ ∧
    correctedOrientation { stubLib with btAxisAngle := ctor } ⟨0, 0, 0, 1⟩ tiltedPoint =
      ctor ⟨-3 / 5, 0, 0⟩ (4 / 5) := by
  refine ⟨fun _ _ _ => rfl, ?_, ?_, ?_⟩
  · have hsame : getTransformationCallback { stubLib with btAxisAngle := ctor } cloudState
        (imageMsg 1 160 "bgr8" [5, 80, 0, 0]) =
        getTransformationCallback stubLib cloudState
          (imageMsg 1 160 "bgr8" [5, 80, 0, 0]) := rfl
    rw [hsame]
    decide!
  · have hsame : (convert { stubLib with btAxisAngle := ctor } [0, 0, 1000]).2 =
        (convert stubLib [0, 0, 1000]).2 := rfl
    rw [hsame]
    decide!
  · have hax : Vec3.cross (btTransformApply ⟨0, 0, 0, 1⟩ ⟨0, 0, 1⟩)
        ⟨tiltedPoint.normal_x, tiltedPoint.normal_y, tiltedPoint.normal_z⟩ =
        ⟨-3 / 5, 0, 0⟩ := by decide!
    have han : Vec3.dot (btTransformApply ⟨0, 0, 0, 1⟩ ⟨0, 0, 1⟩)
        ⟨tiltedPoint.normal_x, tiltedPoint.normal_y, tiltedPoint.normal_z⟩ = 4 / 5 := by
      decide!
    show (ctor (Vec3.cross (btTransformApply ⟨0, 0, 0, 1⟩ ⟨0, 0, 1⟩)
        ⟨tiltedPoint.normal_x, tiltedPoint.normal_y, tiltedPoint.normal_z⟩)
        (Vec3.dot (btTransformApply ⟨0, 0, 0, 1⟩ ⟨0, 0, 1⟩)
        ⟨tiltedPoint.normal_x, tiltedPoint.normal_y, tiltedPoint.normal_z⟩)).mul ⟨0, 0, 0, 1⟩ = _
    rw [hax, han]
    simp [Quat.mul]

/-! ## C8: an image that cannot be converted -/

/-- C8, the code on two frames: the first image converts and shows marker 5; the second
has encoding `bayer_rggb8` and does not convert. For the second frame the callback logs the
error, then runs the detector on the buffer of the first frame, requests a continuity
estimate, stores a new transform in the object and publishes a record stamped with the
second frame's header. -/
theorem unconvertible_frame_is_processed :
    (runFrames stubLib startState
        [imageMsg 1 640 "bgr8" [5, 80, 0, 0], imageMsg 2 640 "bayer_rggb8" [9, 9, 9, 9]]).toOption.map
      (fun logs => logs.map (fun log => log.head)) =
    some [[Event.arDetectMarker [5, 80, 0, 0]],
          [Event.rosError, Event.arDetectMarker [5, 80, 0, 0]]] ∧
    (runFrames stubLib startState
        [imageMsg 1 640 "bgr8" [5, 80, 0, 0], imageMsg 2 640 "bayer_rggb8" [9, 9, 9, 9]]).toOption.map
      (fun logs => logs.map (fun log => log.iters.map requests)) =
    some [[[Event.arGetTransMat 0]], [[Event.arGetTransMatCont 0 [0, 0, 1000]]]] ∧
    (runFrames stubLib startState
        [imageMsg 1 640 "bgr8" [5, 80, 0, 0], imageMsg 2 640 "bayer_rggb8" [9, 9, 9, 9]]).toOption.map
      (fun logs => logs.map (fun log => log.post.object)) =
    some [[{ marker5 with visible := 1, trans := [0, 0, 1000] }],
          [{ marker5 with visible := 1, trans := [0, 0, 1001] }]] ∧
    (runFrames stubLib startState
        [imageMsg 1 640 "bgr8" [5, 80, 0, 0], imageMsg 2 640 "bayer_rggb8" [9, 9, 9, 9]]).toOption.map
      (fun logs => logs.map (fun log => log.post.arPoseMarkers_)) =
    some [[{ header := ⟨"camera", 1⟩, id := 5, position := ⟨0, 0, 1⟩,
             orientation := ⟨0, 0, 0, 1⟩, confidence := 4 / 5 }],
          [{ header := ⟨"camera", 2⟩, id := 5, position := ⟨0, 0, 1001 / 1000⟩,
             orientation := ⟨0, 0, 0, 1⟩, confidence := 4 / 5 }]] := by
  decide!

/-! ## C9: a cell index outside the cloud grid -/

/-- C9 fails as stated; the code on concrete frames with a 160 by 120 cloud. With an image 200 wide
(`downsize` 1) and a centroid (180, 10), the column 180 is outside the grid; the callback
reads `cloud_(180, 10)`, which is the vector element 1780, the cell (20, 11), and
publishes that cell's position (20, 11, 1) instead of the converter's (9/50, 1/100, 1).
With an image 320 wide (`downsize` 2) and a centroid (0, 250) the row 125 is outside the
grid and the read is outside the vector; with an image 80 wide `downsize` is 0. Both are
undefined behaviour. -/
theorem out_of_grid_cell_is_read :
    (getTransformationCallback stubLib cloudState
        (imageMsg 1 200 "bgr8" [5, 80, 180, 10])).toOption.map
          (fun log => (log.iters, log.post.arPoseMarkers_.map (fun m => m.position))) =
      some ([[Event.arGetTransMat 0, Event.cloudRead 180 10,
              Event.push_back { header := ⟨"camera", 1⟩, id := 5, position := ⟨20, 11, 1⟩,
                                orientation := ⟨0, 0, 0, 1⟩, confidence := 4 / 5 }]],
            [⟨20, 11, 1⟩]) ∧
    (convert stubLib (stubLib.arGetTransMat ⟨0, 5, 0, 4 / 5, (180, 10), [], []⟩ (0, 0) 80)).1 =
      ⟨9 / 50, 1 / 100, 1⟩ ∧
    getTransformationCallback stubLib cloudState
        (imageMsg 1 320 "bgr8" [5, 80, 0, 250]) = .undefined ∧
    getTransformationCallback stubLib cloudState
        (imageMsg 1 80 "bgr8" [5, 80, 0, 0]) = .undefined := by
  decide!

/-- C9 as amended: once a cloud has been received, for an object whose selected
candidate is `marker_info[k]`, whenever `downsize` is not 0 (the two cell indices exist)
and the read `cloud_(col, row)` lands inside the cloud's point vector, whether or not
(`col`, `row`) lies inside the grid, the loop body reads that cell and pushes exactly one
record; the record has the converter's position and orientation if the cell has NaN in x,
y or z, and the cell's point as position otherwise. -/
theorem cloud_cell_read_unchecked (L : Lib) (cloud_ : PointCloud) (downsize : Nat)
    (header : Header) (marker_info : List ARMarkerInfo) (obj : ObjectData_T)
    (k : Nat) (mk : ARMarkerInfo) (col row : Int) (point : PointXYZRGBNormal)
    (hk : selectMarker obj.id marker_info = (k : Int))
    (hmk : marker_info[k]? = some mk)
    (hcol : cellIndex mk.pos.1 downsize = some col)
    (hrow : cellIndex mk.pos.2 downsize = some row)
    (hpt : cloud_.at col row = some point) :
    ∃ (r : IterResult) (m : ARMarker),
      processObject L true cloud_ downsize header marker_info obj = .ok r ∧
      r.markers = [m] ∧ Event.cloudRead col row ∈ r.events ∧
      ((point.x = none ∨ point.y = none ∨ point.z = none) →
        m.position = (convert L r.object.trans).1 ∧
        m.orientation = (convert L r.object.trans).2) ∧
      (∀ (px py pz : ℚ), point.x = some px → point.y = some py → point.z = some pz →
        m.position = ⟨px, py, pz⟩) := by
  obtain ⟨m0, _, hp⟩ := processObject_matched L true cloud_ downsize header
    marker_info obj k mk hk hmk
  by_cases hnan : point.x = none ∨ point.y = none ∨ point.z = none
  · rw [depthRefine_nan L cloud_ downsize mk _ _ col row point hcol hrow hpt hnan] at hp
    refine ⟨_, _, hp, rfl, by simp, fun _ => ⟨rfl, rfl⟩, ?_⟩
    intro px py pz hx hy hz
    rcases hnan with h | h | h
    · rw [hx] at h
      cases h
    · rw [hy] at h
      cases h
    · rw [hz] at h
      cases h
  · obtain ⟨px, hx⟩ : ∃ px, point.x = some px := by
      rcases hx : point.x with _ | px
      · exact absurd (Or.inl hx) hnan
      · exact ⟨px, rfl⟩
    obtain ⟨py, hy⟩ : ∃ py, point.y = some py := by
      rcases hy : point.y with _ | py
      · exact absurd (Or.inr (Or.inl hy)) hnan
      · exact ⟨py, rfl⟩
    obtain ⟨pz, hz⟩ : ∃ pz, point.z = some pz := by
      rcases hz : point.z with _ | pz
      · exact absurd (Or.inr (Or.inr hz)) hnan
      · exact ⟨pz, rfl⟩
    rw [depthRefine_valid L cloud_ downsize mk _ _ col row point px py pz hcol hrow hpt
      hx hy hz] at hp
    refine ⟨_, _, hp, rfl, by simp, fun h => absurd h hnan, ?_⟩
    intro px' py' pz' hx' hy' hz'
    rw [hx] at hx'
    rw [hy] at hy'
    rw [hz] at hz'
    cases hx'
    cases hy'
    cases hz'
    rfl

/-- Witness for C9 as amended: in the 160 by 120 cloud, the column 180 of row 10 is outside
the grid, the read lands on the vector element 1780, and that cell's point (20, 11, 1) is
the position of the record. -/
theorem cloud_cell_read_unchecked_witness :
    selectMarker marker5.id (stubDetect [5, 80, 180, 10]) = ((0 : Nat) : Int) ∧
    cellIndex 180 1 = some 180 ∧ cellIndex 10 1 = some 10 ∧
    kinectCloud.at 180 10 = some (gridCell 1780) ∧
    ∃ (r : IterResult) (m : ARMarker),
      processObject stubLib true kinectCloud 1 ⟨"camera", 1⟩ (stubDetect [5, 80, 180, 10])
        marker5 = .ok r ∧
      r.markers = [m] ∧ Event.cloudRead 180 10 ∈ r.events ∧
      (((gridCell 1780).x = none ∨ (gridCell 1780).y = none ∨ (gridCell 1780).z = none) →
        m.position = (convert stubLib r.object.trans).1 ∧
        m.orientation = (convert stubLib r.object.trans).2) ∧
      (∀ (px py pz : ℚ), (gridCell 1780).x = some px → (gridCell 1780).y = some py →
        (gridCell 1780).z = some pz → m.position = ⟨px, py, pz⟩) :=
  ⟨by decide!, by decide!, by decide!, by decide!,
   cloud_cell_read_unchecked stubLib kinectCloud 1 ⟨"camera", 1⟩
     (stubDetect [5, 80, 180, 10]) marker5 0 ⟨0, 5, 0, 4 / 5, (180, 10), [], []⟩ 180 10
     (gridCell 1780) (by decide!) (by decide!) (by decide!) (by decide!) (by decide!)⟩

/-! ## The degenerate normal -/

/-- When the normal of the cloud cell equals the rotated +Z axis `up`, the axis handed to
the axis-angle constructor in line 244 is the zero vector and the angle is `up . up`. -/
theorem degenerate_normal_axis (L : Lib) (q : Quat) (point : PointXYZRGBNormal)
    (hn : (⟨point.normal_x, point.normal_y, point.normal_z⟩ : Vec3) =
      btTransformApply q ⟨0, 0, 1⟩) :
    correctedOrientation L q point =
      (L.btAxisAngle ⟨0, 0, 0⟩
        (Vec3.dot (btTransformApply q ⟨0, 0, 1⟩) (btTransformApply q ⟨0, 0, 1⟩))).mul q := by
  unfold correctedOrientation
  simp only [hn]
  congr 2
  simp only [Vec3.cross, Vec3.mk.injEq]
  refine ⟨?_, ?_, ?_⟩ <;> ring

end ArKinect
